/-
Verification of the marketing-automation / content-generation core of
the Marketing_Automation_Content_Creation repository.

The Python source is shallowly embedded: dictionaries become structures
with `Option` fields (a `none` field models an absent key), `dict.get`
with a default becomes `Option.getD`, a raised exception becomes the
`Except.error` constructor carrying the exception text, and Python's
stable `list.sort(key=...)` is modelled by `List.insertionSort` over the
key order (any two stable sorts of the same key agree, so this is
faithful).  Nondeterministic inputs (wall-clock time, network fetches,
CPython set iteration order) are threaded as explicit parameters.
-/
import Mathlib

/-! ## Small Python-semantics utilities -/

/-- Model of Python `str.title()` restricted to ASCII: an alphabetic
character is uppercased when the previous character is not alphabetic,
lowercased otherwise; other characters pass through. -/
def pyTitleAux : Bool → List Char → List Char
  | _, [] => []
  | prevAlpha, c :: cs =>
    (if c.isAlpha then (if prevAlpha then c.toLower else c.toUpper) else c) ::
      pyTitleAux c.isAlpha cs

/-- Python `s.title()`. -/
def pyTitle (s : String) : String := String.mk (pyTitleAux false s.toList)

/-- Helper for `pyInStr`: substring test on character lists. -/
def listContainsSub (needle : List Char) : List Char → Bool
  | [] => needle.isEmpty
  | c :: rest => needle.isPrefixOf (c :: rest) || listContainsSub needle rest

/-- Model of the Python expression `needle in hay` on strings. -/
def pyInStr (needle hay : String) : Bool := listContainsSub needle.toList hay.toList

/-- Length of `dropWhile` never exceeds the input length (termination helper). -/
theorem length_dropWhile_le' (p : Char → Bool) (l : List Char) :
    (l.dropWhile p).length ≤ l.length := by
  induction l with
  | nil => simp [List.dropWhile]
  | cons c cs ih =>
    simp only [List.dropWhile]
    cases p c <;> simp <;> omega

/-- Model of `re.sub(r'<[^>]+>', '', s)` on the character list: every
maximal `<...>` group with at least one character between the brackets is
removed; an unmatched `<` is kept. -/
def stripTagsAux : List Char → List Char
  | [] => []
  | c :: rest =>
    if c = '<' then
      match h : rest.dropWhile (fun d => d != '>') with
      | [] => '<' :: rest
      | g :: tail =>
        if rest.takeWhile (fun d => d != '>') = [] then
          '<' :: g :: stripTagsAux tail
        else
          stripTagsAux tail
    else
      c :: stripTagsAux rest
termination_by l => l.length
decreasing_by
  all_goals simp_wf
  all_goals {
    have hle := length_dropWhile_le' (fun d => d != '>') rest
    rw [h] at hle
    simp at hle
    omega
  }

/-- Python `re.sub(r'<[^>]+>', '', s)`. -/
def stripTags (s : String) : String := String.mk (stripTagsAux s.toList)

/-- Quote one CSV field the way Python's `csv.writer` (QUOTE_MINIMAL)
does: fields containing the delimiter, the quote character or a line
terminator character are wrapped in quotes with inner quotes doubled. -/
def csvField (s : String) : String :=
  if s.toList.any (fun c => c = ',' || c = '"' || c = '\n' || c = '\r') then
    "\"" ++ s.replace "\"" "\"\"" ++ "\""
  else s

/-- One `csv.writer.writerow` call: comma-joined quoted fields plus the
default `\r\n` line terminator. -/
def csvRow (cells : List String) : String :=
  String.intercalate "," (cells.map csvField) ++ "\r\n"

/-! ## tools/browser_utils.py — brand analysis with fallback (C7)

The regex/scraping extractors are out of the specified core ("treated as
a black-box brand profile supplier"), so they enter as parameters; the
try/except skeleton of `analyze_brand_from_url` and the concrete
`extract_domain_name` fallback are embedded from the source. -/

/-- Result shape of `extract_pricing_info`. -/
structure PricingInfo where
  has_pricing : Bool
  pricing_model : String
  price_points : List String
deriving DecidableEq

/-- The dictionary returned by `analyze_brand_from_url`.  The success
branch and the fallback branch of the source build dictionaries with
different key sets; keys present only on the success branch are `Option`
fields that the fallback leaves `none`.  The `error` key (only present
on the fallback branch) is the degraded marker. -/
structure BrandAnalysis where
  url : String
  error : Option String
  brand_name : String
  description : String
  products : List String
  target_audience : String
  value_propositions : Option (List String)
  keywords : Option (List String)
  colors : Option (List String)
  tone : Option String
  competitors : Option (List String)
  contact_info : Option (List (String × String))
  social_links : Option (List (String × String))
  content_themes : Option (List String)
  pricing_info : Option PricingInfo
  analyzed_at : Nat
deriving DecidableEq

/-- The black-box content extractors of browser_utils.py (out of the
specified core); each is a pure function of the fetched text or of the
url, exactly as in the source. -/
structure BrandExtractors where
  extract_brand_name : String → String → String
  extract_brand_description : String → String
  extract_products : String → List String
  extract_target_audience : String → String
  extract_value_propositions : String → List String
  extract_keywords : String → List String
  extract_brand_colors : String → List String
  analyze_brand_tone : String → String
  extract_competitors : String → List String
  extract_contact_info : String → List (String × String)
  extract_social_links : String → List (String × String)
  extract_content_themes : String → List String
  extract_pricing_info : String → PricingInfo

/-- Characters allowed after the first character of a URL scheme. -/
def isSchemeChar (c : Char) : Bool := c.isAlphanum || c = '+' || c = '-' || c = '.'

/-- A valid URL scheme: a letter followed by letters, digits, `+`, `-`, `.`. -/
def validScheme : List Char → Bool
  | [] => false
  | c :: cs => c.isAlpha && cs.all isSchemeChar

/-- The netloc runs up to the first `/`, `?` or `#`. -/
def takeNetloc (cs : List Char) : List Char :=
  cs.takeWhile (fun c => c != '/' && c != '?' && c != '#')

/-- Split a character list at the first occurrence of `sep`:
the parts before and after it, or `none` when `sep` does not occur. -/
def splitFirstAux (sep : List Char) : List Char → Option (List Char × List Char)
  | [] => none
  | c :: rest =>
    if sep.isPrefixOf (c :: rest) then some ([], (c :: rest).drop sep.length)
    else
      match splitFirstAux sep rest with
      | none => none
      | some (pre, post) => some (c :: pre, post)

/-- Model of `urllib.parse.urlparse(url).netloc` on the character list:
the authority component of a URL written either as `scheme://authority...`
or `//authority...`; a string with no authority component has netloc `""`. -/
def netlocChars (cs : List Char) : List Char :=
  if ['/', '/'].isPrefixOf cs then takeNetloc (cs.drop 2)
  else
    match splitFirstAux [':', '/', '/'] cs with
    | some (scheme, rest) => if validScheme scheme then takeNetloc rest else []
    | none => []

/-- `urllib.parse.urlparse(url).netloc`. -/
def netlocOf (url : String) : String := String.mk (netlocChars url.toList)

/-- The trailing-extension alternatives of `re.sub(r'\.(com|org|net|io|co|us|uk|ca)$', ...)`,
in the alternation order of the source regex. -/
def tldList : List String := ["com", "org", "net", "io", "co", "us", "uk", "ca"]

/-- Remove one trailing `.tld` (case-insensitively), as the source regex does. -/
def stripTld (cs : List Char) : List Char :=
  match tldList.find? (fun t => ('.' :: t.toList).isSuffixOf (cs.map Char.toLower)) with
  | some t => cs.take (cs.length - (t.toList.length + 1))
  | none => cs

/-- `extract_domain_name`: netloc of the url, with a leading `www.` and
one common trailing extension removed, then title-cased. -/
def extract_domain_name (url : String) : String :=
  let domain := netlocChars url.toList
  let domain := if ['w', 'w', 'w', '.'].isPrefixOf domain then domain.drop 4 else domain
  pyTitle (String.mk (stripTld domain))

/-- The fallback dictionary built by the `except` branch of
`analyze_brand_from_url` (and by the empty-content `raise` caught by the
same branch). -/
def fallbackBrandAnalysis (url e : String) (now : Nat) : BrandAnalysis :=
  { url := url
    error := some e
    brand_name := extract_domain_name url
    description := "Brand analysis failed - using fallback data"
    products := ["Product or Service"]
    target_audience := "General consumers"
    value_propositions := none
    keywords := none
    colors := none
    tone := none
    competitors := none
    contact_info := none
    social_links := none
    content_themes := none
    pricing_info := none
    analyzed_at := now }

/-- `analyze_brand_from_url`.  The outcome of `get_website_text_content`
(network) is the `fetched` parameter: `Except.error e` models the helper
raising with text `e`, `Except.ok c` models it returning content `c`.
An empty content triggers the source's own
`raise Exception(f"Failed to extract content from {url}")`, caught by
the same `except` branch. -/
def analyze_brand_from_url (ex : BrandExtractors) (fetched : Except String String)
    (now : Nat) (url : String) : BrandAnalysis :=
  match fetched with
  | .error e => fallbackBrandAnalysis url e now
  | .ok website_content =>
    if website_content = "" then
      fallbackBrandAnalysis url ("Failed to extract content from " ++ url) now
    else
      { url := url
        error := none
        brand_name := ex.extract_brand_name website_content url
        description := ex.extract_brand_description website_content
        products := ex.extract_products website_content
        target_audience := ex.extract_target_audience website_content
        value_propositions := some (ex.extract_value_propositions website_content)
        keywords := some (ex.extract_keywords website_content)
        colors := some (ex.extract_brand_colors url)
        tone := some (ex.analyze_brand_tone website_content)
        competitors := some (ex.extract_competitors website_content)
        contact_info := some (ex.extract_contact_info website_content)
        social_links := some (ex.extract_social_links url)
        content_themes := some (ex.extract_content_themes website_content)
        pricing_info := some (ex.extract_pricing_info website_content)
        analyzed_at := now }

/-! ## workflows/marketing_automation/flow_builder.py — data model -/

/-- A `cta` dictionary (`{"text": ..., "url": ...}`); an absent key is `none`. -/
structure Cta where
  text : Option String
  url : Option String
deriving DecidableEq

/-- One generated email dictionary, with the keys flow_builder.py reads.
`timing_send_after_hours` models `email.get("timing", {}).get("send_after_hours", d)`:
both an absent `timing` dict and an absent `send_after_hours` key are `none`. -/
structure Email where
  sequence_number : Option Nat
  subject : Option String
  preview_text : Option String
  body : Option String
  cta : Option Cta
  personalization : Option (List String)
  timing_send_after_hours : Option Nat
  purpose : Option String
deriving DecidableEq

/-- One generated SMS dictionary, with the keys flow_builder.py reads.
The opaque `compliance` payload is modelled as a string. -/
structure Sms where
  sequence_number : Option Nat
  message : Option String
  personalization : Option (List String)
  compliance : Option String
  timing_send_after_hours : Option Nat
  purpose : Option String
deriving DecidableEq

/-- One visual-asset dictionary (opaque to the embedded functions). -/
structure Visual where
  type : Option String
  description : Option String
  file_name : Option String
deriving DecidableEq

/-- The campaign-plan dictionary, with the keys the embedded functions read. -/
structure CampaignPlan where
  campaign_type : Option String
  brand_name : Option String
deriving DecidableEq

/-- `generate_flow_name`. -/
def generate_flow_name (campaign_plan : CampaignPlan) : String :=
  campaign_plan.brand_name.getD "Brand" ++ " - " ++
    campaign_plan.campaign_type.getD "Custom" ++ " Campaign"

/-- The `trigger_types` lookup table of `get_trigger_type`. -/
def trigger_types : List (String × String) :=
  [("Cart Abandonment", "cart_abandonment"),
   ("Welcome Series", "user_signup"),
   ("Post-Purchase", "purchase_completed"),
   ("Win-Back", "user_inactive"),
   ("Custom", "custom_event")]

/-- `get_trigger_type`: `trigger_types.get(campaign_type, "custom_event")`. -/
def get_trigger_type (campaign_type : String) : String :=
  (List.lookup campaign_type trigger_types).getD "custom_event"

/-- `format_email_body`: newline to `<br>`, then wrap the `<br><br>`-separated
non-blank paragraphs in `<p>` tags. -/
def format_email_body (body : String) : String :=
  let formatted_body := body.replace "\n" "<br>"
  let paragraphs := formatted_body.splitOn "<br><br>"
  String.join ((paragraphs.filter (fun p => p.trim ≠ "")).map (fun p => "<p>" ++ p ++ "</p>"))

/-- `format_email_cta`: empty string for a missing/empty cta text, otherwise
the button markup of the source. -/
def format_email_cta (cta : Cta) : String :=
  if cta.text.getD "" = "" then ""
  else
    "\n    <div style=\"text-align: center; margin: 30px 0;\">\n        <a href=\"" ++
      cta.url.getD "#" ++
      "\" \n           style=\"display: inline-block; padding: 15px 30px; background-color: #007bff; color: white; text-decoration: none; border-radius: 5px; font-weight: bold;\">\n            " ++
      cta.text.getD "Click Here" ++
      "\n        </a>\n    </div>\n    "

/-- `format_email_for_platform`: the f-string HTML template of the source
(`\x7b`/`\x7d` are the literal braces the doubled f-string braces render to). -/
def format_email_for_platform (email : Email) : String :=
  "\n    <!DOCTYPE html>\n    <html>\n    <head>\n        <meta charset=\"utf-8\">\n        <meta name=\"viewport\" content=\"width=device-width, initial-scale=1.0\">\n        <title>" ++
    email.subject.getD "Email" ++
    "</title>\n    </head>\n    <body style=\"margin: 0; padding: 20px; font-family: Arial, sans-serif;\">\n        <div style=\"max-width: 600px; margin: 0 auto;\">\n            <!-- Header -->\n            <div style=\"text-align: center; margin-bottom: 20px;\">\n                <img src=\"\x7bbrand_logo\x7d\" alt=\"\x7bbrand_name\x7d\" style=\"max-height: 80px;\">\n            </div>\n            \n            <!-- Body Content -->\n            <div style=\"line-height: 1.6; color: #333;\">\n                " ++
    format_email_body (email.body.getD "") ++
    "\n            </div>\n            \n            <!-- CTA -->\n            " ++
    format_email_cta (email.cta.getD ⟨none, none⟩) ++
    "\n            \n            <!-- Footer -->\n            <div style=\"margin-top: 40px; padding-top: 20px; border-top: 1px solid #eee; text-align: center; font-size: 12px; color: #666;\">\n                <p>\x7bunsubscribe_link\x7d</p>\n                <p>\x7bcompany_address\x7d</p>\n            </div>\n        </div>\n    </body>\n    </html>\n    "

/-- `extract_text_version`: undo the basic HTML markup, strip remaining tags, trim. -/
def extract_text_version (html_body : String) : String :=
  (stripTags (((html_body.replace "<br>" "\n").replace "<p>" "").replace "</p>" "\n\n")).trim

/-- The email-branch dictionary of `build_message_content_block`; the constant
`tracking` sub-dictionary is kept as an association list. -/
structure EmailContent where
  subject : String
  preview_text : String
  body_html : String
  body_text : String
  sender_name : String
  sender_email : String
  reply_to : String
  personalization : List String
  cta : Cta
  tracking : List (String × Bool)
deriving DecidableEq

/-- The sms-branch dictionary of `build_message_content_block`. -/
structure SmsContent where
  message : String
  sender_id : String
  personalization : List String
  compliance : String
  tracking : List (String × Bool)
deriving DecidableEq

/-- Return value of `build_message_content_block`: an email block, an sms
block, or the final `return {}`. -/
inductive ContentBlock where
  | emailBlock (c : EmailContent)
  | smsBlock (c : SmsContent)
  | emptyBlock
deriving DecidableEq

/-- `build_message_content_block`.  In the source the `content` dict is
untyped; here it is `Sum Email Sms`.  `build_message_sequence` always pairs
`"email"` with an email dict and `"sms"` with an sms dict, so the two
mismatched combinations are unreachable there and are mapped to the
source's fall-through `return {}`. -/
def build_message_content_block (content : Sum Email Sms) (message_type : String) :
    ContentBlock :=
  if message_type = "email" then
    match content with
    | Sum.inl e =>
      ContentBlock.emailBlock
        { subject := e.subject.getD ""
          preview_text := e.preview_text.getD ""
          body_html := format_email_for_platform e
          body_text := extract_text_version (e.body.getD "")
          sender_name := "\x7b\x7bbrand_name\x7d\x7d"
          sender_email := "\x7b\x7bbrand_email\x7d\x7d"
          reply_to := "\x7b\x7bsupport_email\x7d\x7d"
          personalization := e.personalization.getD []
          cta := e.cta.getD ⟨none, none⟩
          tracking := [("opens", true), ("clicks", true), ("conversions", true)] }
    | Sum.inr _ => ContentBlock.emptyBlock
  else if message_type = "sms" then
    match content with
    | Sum.inr s =>
      ContentBlock.smsBlock
        { message := s.message.getD ""
          sender_id := "\x7b\x7bbrand_shortcode\x7d\x7d"
          personalization := s.personalization.getD []
          compliance := s.compliance.getD ""
          tracking := [("delivery", true), ("responses", true), ("conversions", true)] }
    | Sum.inl _ => ContentBlock.emptyBlock
  else ContentBlock.emptyBlock

/-- One delivery condition of `build_message_conditions`. -/
structure MessageCondition where
  type : String
  description : String
deriving DecidableEq

/-- `build_message_conditions`: two standard conditions plus `sms_consent`
for sms messages (the `content` argument is unused in the source too). -/
def build_message_conditions (content : Sum Email Sms) (message_type : String) :
    List MessageCondition :=
  let conditions : List MessageCondition :=
    [{ type := "not_completed_goal", description := "User hasn\x27t converted yet" },
     { type := "subscribed", description := "User is subscribed to marketing messages" }]
  if message_type = "sms" then
    conditions ++ [{ type := "sms_consent", description := "User has consented to SMS marketing" }]
  else conditions

/-- The `delay` sub-dictionary of a sequence step. -/
structure Delay where
  type : String
  value : Nat
  unit : String
deriving DecidableEq

/-- One entry of the `all_messages` list built inside `build_message_sequence`. -/
structure TaggedMessage where
  type : String
  content : Sum Email Sms
  delay_hours : Nat
  sequence_number : Nat
deriving DecidableEq

/-- Tag one email as in the first loop of `build_message_sequence`
(default delay 24 hours, default sequence number 1). -/
def tagEmail (email : Email) : TaggedMessage :=
  { type := "email"
    content := Sum.inl email
    delay_hours := email.timing_send_after_hours.getD 24
    sequence_number := email.sequence_number.getD 1 }

/-- Tag one sms as in the second loop of `build_message_sequence`
(default delay 48 hours, default sequence number 1). -/
def tagSms (sms_msg : Sms) : TaggedMessage :=
  { type := "sms"
    content := Sum.inr sms_msg
    delay_hours := sms_msg.timing_send_after_hours.getD 48
    sequence_number := sms_msg.sequence_number.getD 1 }

/-- The concatenated `all_messages` list (emails first, then sms). -/
def all_messages (emails : List Email) (sms : List Sms) : List TaggedMessage :=
  emails.map tagEmail ++ sms.map tagSms

/-- The sort key order of `all_messages.sort(key=lambda x: x["delay_hours"])`. -/
def msgLE : TaggedMessage → TaggedMessage → Prop :=
  fun a b => a.delay_hours ≤ b.delay_hours

instance : DecidableRel msgLE := fun a b => Nat.decLe a.delay_hours b.delay_hours

instance : IsTotal TaggedMessage msgLE := ⟨fun a b => Nat.le_total a.delay_hours b.delay_hours⟩

instance : IsTrans TaggedMessage msgLE := ⟨fun _ _ _ h h' => Nat.le_trans h h'⟩

/-- One sequence step dictionary of `build_message_sequence`. -/
structure SequenceItem where
  step_id : String
  step_type : String
  step_name : String
  delay : Delay
  content : ContentBlock
  conditions : List MessageCondition
  next_step : String
deriving DecidableEq

/-- The loop body of `build_message_sequence`: the step built for the
message at index `i` of the sorted list of length `total`. -/
def sequence_item (total i : Nat) (message : TaggedMessage) : SequenceItem :=
  { step_id := "step_" ++ toString (i + 1)
    step_type := message.type
    step_name := pyTitle message.type ++ " " ++ toString message.sequence_number
    delay := { type := "time_delay", value := message.delay_hours, unit := "hours" }
    content := build_message_content_block message.content message.type
    conditions := build_message_conditions message.content message.type
    next_step := if i < total - 1 then "step_" ++ toString (i + 2) else "end_flow" }

/-- The `for i, message in enumerate(all_messages)` loop of
`build_message_sequence`, with the running index made explicit. -/
def buildSeq (total : Nat) : Nat → List TaggedMessage → List SequenceItem
  | _, [] => []
  | i, m :: rest => sequence_item total i m :: buildSeq total (i + 1) rest

/-- `build_message_sequence`: tag emails and sms with channel, delay and
sequence number, stable-sort by `delay_hours` (Python's `list.sort` is
stable; `List.insertionSort` is the same stable sort), then emit the step
dictionaries.  The `campaign_plan` argument is read (`timeline`) but unused,
as in the source. -/
def build_message_sequence (emails : List Email) (sms : List Sms)
    (campaign_plan : CampaignPlan) : List SequenceItem :=
  let sorted := List.insertionSort msgLE (all_messages emails sms)
  buildSeq sorted.length 0 sorted

/-! ## flow_builder.py — export adapters (C8, C10) -/

/-- The `constraint` block of a Klaviyo event trigger. -/
structure KlaviyoConstraint where
  field : String
  operator : String
  value : Nat
deriving DecidableEq

/-- One Klaviyo trigger filter (`build_klaviyo_triggers` builds either an
event trigger with a constraint or a list trigger). -/
inductive KlaviyoTrigger where
  | eventTrigger (event : String) (constraint : KlaviyoConstraint)
  | listTrigger (list_id : String)
deriving DecidableEq

/-- One Klaviyo flow filter of `build_klaviyo_filters`. -/
structure KlaviyoFilter where
  type : String
  property : String
  operator : String
  value : Option Bool
deriving DecidableEq

/-- The `settings` block of the Klaviyo export. -/
structure KlaviyoSettings where
  smart_sending : Bool
  quiet_hours_start : String
  quiet_hours_end : String
deriving DecidableEq

/-- One entry of the Klaviyo `messages` list: the email and sms loop
bodies of `generate_klaviyo_export` build dictionaries with different
keys, modelled as two constructors. -/
inductive KlaviyoMessage where
  | email (name : String) (delay : Nat)
      (delay_unit subject preview_text body from_email from_name : String)
  | sms (name : String) (delay : Nat) (delay_unit body : String)
      (media_url : Option String)
deriving DecidableEq

/-- The channel tag (`"type"` key) of a Klaviyo message. -/
def ktype : KlaviyoMessage → String
  | .email _ _ _ _ _ _ _ _ => "email"
  | .sms _ _ _ _ _ => "sms"

/-- The `delay` value of a Klaviyo message. -/
def kdelay : KlaviyoMessage → Nat
  | .email _ d _ _ _ _ _ _ => d
  | .sms _ d _ _ _ => d

/-- `build_klaviyo_triggers`: substring dispatch on the campaign type. -/
def build_klaviyo_triggers (campaign_plan : CampaignPlan) : List KlaviyoTrigger :=
  let campaign_type := campaign_plan.campaign_type.getD ""
  if pyInStr "Cart Abandonment" campaign_type then
    [.eventTrigger "Started Checkout" { field := "$value", operator := "greater than", value := 0 }]
  else if pyInStr "Welcome" campaign_type then
    [.listTrigger "welcome_list"]
  else if pyInStr "Post-Purchase" campaign_type then
    [.eventTrigger "Placed Order" { field := "$value", operator := "greater than", value := 0 }]
  else []

/-- `build_klaviyo_filters` (constant in the source). -/
def build_klaviyo_filters (campaign_plan : CampaignPlan) : List KlaviyoFilter :=
  [{ type := "property", property := "email", operator := "is set", value := none },
   { type := "property", property := "can_receive_email_marketing",
     operator := "equals", value := some true }]

/-- The Klaviyo export dictionary. -/
structure KlaviyoFlow where
  flow_name : String
  trigger_filters : List KlaviyoTrigger
  flow_filters : List KlaviyoFilter
  messages : List KlaviyoMessage
  settings : KlaviyoSettings
deriving DecidableEq

/-- The email loop body of `generate_klaviyo_export` (default delay 24). -/
def klaviyo_email_message (email : Email) : KlaviyoMessage :=
  .email ("Email " ++ toString (email.sequence_number.getD 1))
    (email.timing_send_after_hours.getD 24) "hours"
    (email.subject.getD "") (email.preview_text.getD "")
    (format_email_for_platform email)
    "\x7b\x7b organization.from_email \x7d\x7d"
    "\x7b\x7b organization.from_name \x7d\x7d"

/-- The sms loop body of `generate_klaviyo_export` (default delay 48). -/
def klaviyo_sms_message (sms_msg : Sms) : KlaviyoMessage :=
  .sms ("SMS " ++ toString (sms_msg.sequence_number.getD 1))
    (sms_msg.timing_send_after_hours.getD 48) "hours"
    (sms_msg.message.getD "") none

/-- `generate_klaviyo_export`: emails appended in input order, then sms
in input order (the `visuals` argument is unused in the source too). -/
def generate_klaviyo_export (campaign_plan : CampaignPlan) (emails : List Email)
    (sms : List Sms) (visuals : List Visual) : KlaviyoFlow :=
  { flow_name := generate_flow_name campaign_plan
    trigger_filters := build_klaviyo_triggers campaign_plan
    flow_filters := build_klaviyo_filters campaign_plan
    messages := emails.map klaviyo_email_message ++ sms.map klaviyo_sms_message
    settings := { smart_sending := true, quiet_hours_start := "22:00", quiet_hours_end := "08:00" } }

/-- One email entry of the Mailchimp export. -/
structure MailchimpEmail where
  delay : Nat
  delay_unit : String
  subject : String
  content : String
deriving DecidableEq

/-- The Mailchimp export dictionary. -/
structure MailchimpExport where
  automation_name : String
  trigger_type : String
  emails : List MailchimpEmail
deriving DecidableEq

/-- `generate_mailchimp_export` (the `sms` argument is unused in the source too). -/
def generate_mailchimp_export (campaign_plan : CampaignPlan) (emails : List Email)
    (sms : List Sms) : MailchimpExport :=
  { automation_name := generate_flow_name campaign_plan
    trigger_type := "audience"
    emails := emails.map (fun email =>
      { delay := email.timing_send_after_hours.getD 24
        delay_unit := "hours"
        subject := email.subject.getD ""
        content := format_email_for_platform email }) }

/-- One enrollment trigger of the HubSpot export. -/
structure HubspotTrigger where
  type : String
  property : String
deriving DecidableEq

/-- One action of the HubSpot export. -/
structure HubspotAction where
  type : String
  delay : Nat
  email_subject : String
  email_body : String
deriving DecidableEq

/-- The HubSpot export dictionary. -/
structure HubspotExport where
  workflow_name : String
  enrollment_triggers : List HubspotTrigger
  actions : List HubspotAction
deriving DecidableEq

/-- `generate_hubspot_export` (the `sms` argument is unused in the source too). -/
def generate_hubspot_export (campaign_plan : CampaignPlan) (emails : List Email)
    (sms : List Sms) : HubspotExport :=
  { workflow_name := generate_flow_name campaign_plan
    enrollment_triggers := [{ type := "contact_property_change", property := "lifecycle_stage" }]
    actions := emails.map (fun email =>
      { type := "send_email"
        delay := email.timing_send_after_hours.getD 24
        email_subject := email.subject.getD ""
        email_body := email.body.getD "" }) }

/-- `generate_csv_export`: header row, one row per email, one row per sms,
with the same 24/48-hour delay defaults and the `body[:100] + "..."` slice. -/
def generate_csv_export (emails : List Email) (sms : List Sms) : String :=
  csvRow ["Type", "Sequence", "Subject/Message", "Body", "Delay Hours", "Purpose"] ++
  String.join (emails.map (fun email =>
    csvRow ["Email", toString (email.sequence_number.getD 1), email.subject.getD "",
            (email.body.getD "").take 100 ++ "...",
            toString (email.timing_send_after_hours.getD 24), email.purpose.getD ""])) ++
  String.join (sms.map (fun sms_msg =>
    csvRow ["SMS", toString (sms_msg.sequence_number.getD 1), sms_msg.message.getD "", "",
            toString (sms_msg.timing_send_after_hours.getD 48), sms_msg.purpose.getD ""]))

/-- The `export_data` dictionary serialized by `generate_json_export`.
`json.dumps(export_data, indent=2)` is injective on this record (two
records differing in any field serialize to different byte strings), so
byte-identity of the rendered output is equality of this record. -/
structure JsonExport where
  campaign_plan : CampaignPlan
  emails : List Email
  sms : List Sms
  visuals : List Visual
  export_timestamp : String
  version : String
deriving DecidableEq

/-- `generate_json_export`.  The source stores `datetime.now().isoformat()`
in `export_timestamp`; the wall clock enters as the `now` parameter. -/
def generate_json_export (campaign_plan : CampaignPlan) (emails : List Email)
    (sms : List Sms) (visuals : List Visual) (now : String) : JsonExport :=
  { campaign_plan := campaign_plan
    emails := emails
    sms := sms
    visuals := visuals
    export_timestamp := now
    version := "1.0" }

/-- The `export_formats` dictionary of `generate_export_formats`. -/
structure ExportFormats where
  klaviyo : KlaviyoFlow
  mailchimp : MailchimpExport
  hubspot : HubspotExport
  generic_csv : String
  json : JsonExport
deriving DecidableEq

/-- `generate_export_formats`: the five named exports; only the json
export reads the wall clock. -/
def generate_export_formats (campaign_plan : CampaignPlan) (emails : List Email)
    (sms : List Sms) (visuals : List Visual) (now : String) : ExportFormats :=
  { klaviyo := generate_klaviyo_export campaign_plan emails sms visuals
    mailchimp := generate_mailchimp_export campaign_plan emails sms
    hubspot := generate_hubspot_export campaign_plan emails sms
    generic_csv := generate_csv_export emails sms
    json := generate_json_export campaign_plan emails sms visuals now }

/-! ## content_generation/asset_packager.py — content summary (C6) -/

/-- The dictionary returned by `create_content_summary`. -/
structure ContentSummary where
  total_assets : Nat
  ad_copy_variants : Nat
  social_platforms : Nat
  total_social_captions : Nat
  images_generated : Nat
  ugc_scripts : Nat
  email_assets : Nat
  content_types : List String
  platforms_covered : List String
  ready_for_deployment : Bool
deriving DecidableEq

/-- A legal linearization of a CPython `set` of strings: some duplicate-free
enumeration of exactly the elements.  CPython's iteration order over a set
is hash-table order (randomized between runs), so the source fixes no
particular order; the order enters as the `setList` parameter. -/
def IsSetLinearization (setList : List String → List String) : Prop :=
  ∀ l : List String, (setList l).Nodup ∧ ∀ x, x ∈ setList l ↔ x ∈ l

/-- A concrete linearization: keep first occurrences in list order. -/
def dedupLinearization : List String → List String := fun l => l.dedup

/-- A concrete linearization: keep first occurrences, reversed. -/
def reverseLinearization : List String → List String := fun l => l.dedup.reverse

/-- `create_content_summary`.  The element types of the four list inputs
are opaque to the function (only lengths and truthiness are read), so they
are type parameters; `social_captions` is the platform→captions dict as an
insertion-ordered association list.  `content_types` is
`list(set([...]) - \x7bNone\x7d)` in the source: the set of non-`None`
entries enumerated in `setList` order. -/
def create_content_summary {α β γ δ : Type} (setList : List String → List String)
    (ad_copy : List α) (social_captions : List (String × List String))
    (images : List β) (ugc_scripts : List γ) (email_assets : List δ) : ContentSummary :=
  { total_assets := ad_copy.length + (social_captions.map (fun kv => kv.2.length)).sum +
      images.length + ugc_scripts.length + email_assets.length
    ad_copy_variants := ad_copy.length
    social_platforms := social_captions.length
    total_social_captions := (social_captions.map (fun kv => kv.2.length)).sum
    images_generated := images.length
    ugc_scripts := ugc_scripts.length
    email_assets := email_assets.length
    content_types := setList (([
        if ad_copy.isEmpty then none else some "ad_copy",
        if social_captions.isEmpty then none else some "social_captions",
        if images.isEmpty then none else some "images",
        if ugc_scripts.isEmpty then none else some "ugc_scripts",
        if email_assets.isEmpty then none else some "email_assets"] :
        List (Option String)).filterMap id)
    platforms_covered := social_captions.map (fun kv => kv.1) ++ ["email", "advertising"]
    ready_for_deployment := true }

/-! ## agents/marketing_automation_agent.py — memory persistence (C9) -/

/-- The in-memory update performed by `save_campaign_to_memory` between
loading and re-writing the brand's memory file: append the new campaign to
`memory["campaigns"]`, then keep only the last 10 entries
(`memory["campaigns"][-10:]`).  File I/O itself is a thin wrapper around
this list transformation.  The campaign-result payload is opaque here. -/
def save_campaign_to_memory {α : Type} (campaigns : List α) (campaign_result : α) : List α :=
  let campaigns := campaigns ++ [campaign_result]
  if campaigns.length > 10 then campaigns.drop (campaigns.length - 10) else campaigns

/-! ## agents/marketing_automation_agent.py — workflow engine (C1)

The LangGraph pipeline is a straight chain
analyze_brand → plan_campaign → generate_emails → generate_sms →
generate_visuals → build_flow, each node passing the whole state dict
through, so `workflow.invoke` is the sequential composition of the six
node functions.  The state dict is a record of `Option` slots; a Python
`state["k"]` lookup of an absent key raises `KeyError("k")`, whose
`str()` is the key wrapped in single quotes.  The payload types produced
by the collaborator functions (brand analysis, plan, emails, sms,
visuals, flow) are opaque type parameters, and each collaborator may
either return a value or raise (`Except.error` with the exception text),
exactly the boundary the nodes wrap in `try/except`. -/

/-- A `state["name"]` dictionary lookup: the value, or a raised
`KeyError` whose text is the quoted key. -/
def getKey {α : Type} (name : String) (v : Option α) : Except String α :=
  match v with
  | some a => .ok a
  | none => .error ("\x27" ++ name ++ "\x27")

/-- The workflow state dict.  `B P E S V F` are the payloads of the six
result slots (`E`, `S`, `V` stand for the whole generated lists). -/
structure WFState (B P E S V F : Type) where
  brand_url : Option String
  campaign_type : Option String
  custom_prompt : Option String
  num_emails : Option Int
  num_sms : Option Int
  target_audience : Option String
  tone : Option String
  brand_analysis : Option B
  campaign_plan : Option P
  emails : Option E
  sms : Option S
  visuals : Option V
  campaign_flow : Option F
  errors : List String

/-- The six collaborator functions the nodes call; each models the
callee either returning (`ok`) or raising (`error` with the exception
text).  Argument lists follow the source call sites. -/
structure Collaborators (B P E S V F : Type) where
  analyze_brand_from_url : String → Except String B
  plan_campaign : B → String → String → Int → Int → String → String → Except String P
  generate_emails : B → P → Int → String → Except String E
  generate_sms : B → P → Int → String → Except String S
  generate_visuals : B → P → E → Except String V
  build_campaign_flow : P → E → S → V → Except String F

variable {B P E S V F : Type}

/-- The `try/except` wrapper shared by every node: on an exception with
text `e`, append `"<name> failed: <e>"` to `state["errors"]` and return
the state otherwise unchanged. -/
def catchStep (name : String) (s : WFState B P E S V F)
    (body : Except String (WFState B P E S V F)) : WFState B P E S V F :=
  match body with
  | .ok s' => s'
  | .error e => { s with errors := s.errors ++ [name ++ " failed: " ++ e] }

/-- `analyze_brand_node`. -/
def analyze_brand_node (c : Collaborators B P E S V F) (s : WFState B P E S V F) :
    WFState B P E S V F :=
  catchStep "Brand analysis" s (do
    let brand_url ← getKey "brand_url" s.brand_url
    let brand_analysis ← c.analyze_brand_from_url brand_url
    pure { s with brand_analysis := some brand_analysis })

/-- `plan_campaign_node` (note `state.get("custom_prompt", "")` cannot raise). -/
def plan_campaign_node (c : Collaborators B P E S V F) (s : WFState B P E S V F) :
    WFState B P E S V F :=
  catchStep "Campaign planning" s (do
    let brand_analysis ← getKey "brand_analysis" s.brand_analysis
    let campaign_type ← getKey "campaign_type" s.campaign_type
    let custom_prompt := s.custom_prompt.getD ""
    let num_emails ← getKey "num_emails" s.num_emails
    let num_sms ← getKey "num_sms" s.num_sms
    let target_audience ← getKey "target_audience" s.target_audience
    let tone ← getKey "tone" s.tone
    let campaign_plan ← c.plan_campaign brand_analysis campaign_type custom_prompt
      num_emails num_sms target_audience tone
    pure { s with campaign_plan := some campaign_plan })

/-- `generate_emails_node`. -/
def generate_emails_node (c : Collaborators B P E S V F) (s : WFState B P E S V F) :
    WFState B P E S V F :=
  catchStep "Email generation" s (do
    let brand_analysis ← getKey "brand_analysis" s.brand_analysis
    let campaign_plan ← getKey "campaign_plan" s.campaign_plan
    let num_emails ← getKey "num_emails" s.num_emails
    let tone ← getKey "tone" s.tone
    let emails ← c.generate_emails brand_analysis campaign_plan num_emails tone
    pure { s with emails := some emails })

/-- `generate_sms_node`: the body only runs when `state["num_sms"] > 0`;
otherwise the state passes through untouched (the `sms` slot is never
written in that case). -/
def generate_sms_node (c : Collaborators B P E S V F) (s : WFState B P E S V F) :
    WFState B P E S V F :=
  catchStep "SMS generation" s (do
    let num_sms ← getKey "num_sms" s.num_sms
    if num_sms > 0 then
      let brand_analysis ← getKey "brand_analysis" s.brand_analysis
      let campaign_plan ← getKey "campaign_plan" s.campaign_plan
      let tone ← getKey "tone" s.tone
      let sms ← c.generate_sms brand_analysis campaign_plan num_sms tone
      pure { s with sms := some sms }
    else
      pure s)

/-- `generate_visuals_node`. -/
def generate_visuals_node (c : Collaborators B P E S V F) (s : WFState B P E S V F) :
    WFState B P E S V F :=
  catchStep "Visual generation" s (do
    let brand_analysis ← getKey "brand_analysis" s.brand_analysis
    let campaign_plan ← getKey "campaign_plan" s.campaign_plan
    let emails ← getKey "emails" s.emails
    let visuals ← c.generate_visuals brand_analysis campaign_plan emails
    pure { s with visuals := some visuals })

/-- `build_flow_node`. -/
def build_flow_node (c : Collaborators B P E S V F) (s : WFState B P E S V F) :
    WFState B P E S V F :=
  catchStep "Flow building" s (do
    let campaign_plan ← getKey "campaign_plan" s.campaign_plan
    let emails ← getKey "emails" s.emails
    let sms ← getKey "sms" s.sms
    let visuals ← getKey "visuals" s.visuals
    let campaign_flow ← c.build_campaign_flow campaign_plan emails sms visuals
    pure { s with campaign_flow := some campaign_flow })

/-- `workflow.invoke` on the compiled graph of
`create_marketing_automation_graph`: the six nodes in chain order.  Every
node is a total function, so no exception escapes the run. -/
def workflow_invoke (c : Collaborators B P E S V F) (s : WFState B P E S V F) :
    WFState B P E S V F :=
  build_flow_node c (generate_visuals_node c (generate_sms_node c
    (generate_emails_node c (plan_campaign_node c (analyze_brand_node c s)))))

/-- The `initial_state` dict of `run_marketing_automation_workflow`: the
seven input keys populated, no result slots, empty error log. -/
def initial_state (brand_url campaign_type custom_prompt : String)
    (num_emails num_sms : Int) (target_audience tone : String) : WFState B P E S V F :=
  { brand_url := some brand_url
    campaign_type := some campaign_type
    custom_prompt := some custom_prompt
    num_emails := some num_emails
    num_sms := some num_sms
    target_audience := some target_audience
    tone := some tone
    brand_analysis := none
    campaign_plan := none
    emails := none
    sms := none
    visuals := none
    campaign_flow := none
    errors := [] }

/-- Collaborators that all succeed with the given values. -/
def okCollab (ba : B) (p : P) (es : E) (sm : S) (vs : V) (fl : F) :
    Collaborators B P E S V F :=
  { analyze_brand_from_url := fun _ => .ok ba
    plan_campaign := fun _ _ _ _ _ _ _ => .ok p
    generate_emails := fun _ _ _ _ => .ok es
    generate_sms := fun _ _ _ _ => .ok sm
    generate_visuals := fun _ _ _ => .ok vs
    build_campaign_flow := fun _ _ _ _ => .ok fl }

/-! ## Concrete fixtures used by witnesses and counterexamples -/

/-- An email dict with no keys set. -/
def emailNone : Email :=
  { sequence_number := none, subject := none, preview_text := none, body := none,
    cta := none, personalization := none, timing_send_after_hours := none, purpose := none }

/-- An sms dict with no keys set. -/
def smsNone : Sms :=
  { sequence_number := none, message := none, personalization := none,
    compliance := none, timing_send_after_hours := none, purpose := none }

/-- An sms dict with `timing.send_after_hours = 1`. -/
def smsOne : Sms :=
  { sequence_number := none, message := none, personalization := none,
    compliance := none, timing_send_after_hours := some 1, purpose := none }

/-- A campaign plan with no keys set. -/
def planEmpty : CampaignPlan := { campaign_type := none, brand_name := none }

/-- Email with sequence number 2 and delay 24 (tie-breaking counterexample). -/
def emailSeq2 : Email :=
  { sequence_number := some 2, subject := some "A", preview_text := none, body := none,
    cta := none, personalization := none, timing_send_after_hours := some 24, purpose := none }

/-- Email with sequence number 1 and delay 24 (tie-breaking counterexample). -/
def emailSeq1 : Email :=
  { sequence_number := some 1, subject := some "B", preview_text := none, body := none,
    cta := none, personalization := none, timing_send_after_hours := some 24, purpose := none }

/-- Collaborators where only the brand-analysis call raises `msg`. -/
def forceAnalyze {B P E S V F : Type} (ba : B) (p : P) (es : E) (sm : S) (vs : V) (fl : F)
    (msg : String) : Collaborators B P E S V F :=
  { okCollab ba p es sm vs fl with analyze_brand_from_url := fun _ => .error msg }

/-- Collaborators where only the campaign-planning call raises `msg`. -/
def forcePlan {B P E S V F : Type} (ba : B) (p : P) (es : E) (sm : S) (vs : V) (fl : F)
    (msg : String) : Collaborators B P E S V F :=
  { okCollab ba p es sm vs fl with plan_campaign := fun _ _ _ _ _ _ _ => .error msg }

/-- Collaborators where only the email-generation call raises `msg`. -/
def forceEmails {B P E S V F : Type} (ba : B) (p : P) (es : E) (sm : S) (vs : V) (fl : F)
    (msg : String) : Collaborators B P E S V F :=
  { okCollab ba p es sm vs fl with generate_emails := fun _ _ _ _ => .error msg }

/-- Collaborators where only the sms-generation call raises `msg`. -/
def forceSms {B P E S V F : Type} (ba : B) (p : P) (es : E) (sm : S) (vs : V) (fl : F)
    (msg : String) : Collaborators B P E S V F :=
  { okCollab ba p es sm vs fl with generate_sms := fun _ _ _ _ => .error msg }

/-- Collaborators where only the visual-generation call raises `msg`. -/
def forceVisuals {B P E S V F : Type} (ba : B) (p : P) (es : E) (sm : S) (vs : V) (fl : F)
    (msg : String) : Collaborators B P E S V F :=
  { okCollab ba p es sm vs fl with generate_visuals := fun _ _ _ => .error msg }

/-- Collaborators where only the flow-building call raises `msg`. -/
def forceFlow {B P E S V F : Type} (ba : B) (p : P) (es : E) (sm : S) (vs : V) (fl : F)
    (msg : String) : Collaborators B P E S V F :=
  { okCollab ba p es sm vs fl with build_campaign_flow := fun _ _ _ _ => .error msg }

/-! ## Helper lemmas -/

/-- `buildSeq` emits one step per message. -/
theorem length_buildSeq (total : Nat) :
    ∀ (i : Nat) (l : List TaggedMessage), (buildSeq total i l).length = l.length
  | _, [] => rfl
  | i, _ :: rest => by simp [buildSeq, length_buildSeq total (i + 1) rest]

/-- Every step emitted by `buildSeq` is `sequence_item` of some listed message. -/
theorem mem_buildSeq (total : Nat) :
    ∀ (i : Nat) (l : List TaggedMessage) (y : SequenceItem),
      y ∈ buildSeq total i l → ∃ j x, x ∈ l ∧ y = sequence_item total j x
  | _, [], y => by simp [buildSeq]
  | i, m :: rest, y => by
    simp only [buildSeq, List.mem_cons]
    rintro (h | h)
    · exact ⟨i, m, Or.inl rfl, h⟩
    · obtain ⟨j, x, hx, hy⟩ := mem_buildSeq total (i + 1) rest y h
      exact ⟨j, x, Or.inr hx, hy⟩

/-- `buildSeq` preserves pairwise delay order of the underlying messages. -/
theorem pairwise_buildSeq (total : Nat) :
    ∀ (i : Nat) (l : List TaggedMessage), List.Pairwise msgLE l →
      List.Pairwise (fun a b => a.delay.value ≤ b.delay.value) (buildSeq total i l)
  | _, [], _ => by simp [buildSeq]
  | i, m :: rest, h => by
    rw [List.pairwise_cons] at h
    simp only [buildSeq]
    refine List.Pairwise.cons ?_ (pairwise_buildSeq total (i + 1) rest h.2)
    intro y hy
    obtain ⟨j, x, hx, rfl⟩ := mem_buildSeq total (i + 1) rest y hy
    simpa [sequence_item, msgLE] using h.1 x hx

/-- The step ids emitted by `buildSeq` are sequential from `i`. -/
theorem map_step_id_buildSeq (total : Nat) :
    ∀ (i : Nat) (l : List TaggedMessage),
      (buildSeq total i l).map (fun s => s.step_id) =
        (List.range' i l.length).map (fun k => "step_" ++ toString (k + 1))
  | _, [] => rfl
  | i, m :: rest => by
    simp only [buildSeq, List.map_cons, List.length_cons, List.range'_succ]
    rw [map_step_id_buildSeq total (i + 1) rest]
    rfl

/-- The next-step pointers emitted by `buildSeq`. -/
theorem map_next_step_buildSeq (total : Nat) :
    ∀ (i : Nat) (l : List TaggedMessage),
      (buildSeq total i l).map (fun s => s.next_step) =
        (List.range' i l.length).map
          (fun k => if k < total - 1 then "step_" ++ toString (k + 2) else "end_flow")
  | _, [] => rfl
  | i, m :: rest => by
    simp only [buildSeq, List.map_cons, List.length_cons, List.range'_succ]
    rw [map_next_step_buildSeq total (i + 1) rest]
    rfl

/-- Each step carries the channel and content block of its own message. -/
theorem map_type_content_buildSeq (total : Nat) :
    ∀ (i : Nat) (l : List TaggedMessage),
      (buildSeq total i l).map (fun s => (s.step_type, s.content)) =
        l.map (fun m => (m.type, build_message_content_block m.content m.type))
  | _, [] => rfl
  | i, m :: rest => by
    simp only [buildSeq, List.map_cons]
    rw [map_type_content_buildSeq total (i + 1) rest]
    rfl

/-- Filtering the emitted steps by delay matches filtering the messages by delay. -/
theorem filter_map_buildSeq (total d : Nat) :
    ∀ (i : Nat) (l : List TaggedMessage),
      (((buildSeq total i l).filter (fun s => s.delay.value == d)).map (fun s => s.step_type)) =
        (l.filter (fun m => m.delay_hours == d)).map (fun m => m.type)
  | _, [] => rfl
  | i, m :: rest => by
    simp only [buildSeq, List.filter_cons]
    by_cases hd : m.delay_hours = d
    · simp [sequence_item, hd, filter_map_buildSeq total d (i + 1) rest]
    · simp [sequence_item, hd, filter_map_buildSeq total d (i + 1) rest]

/-- Stability of `orderedInsert` for the delay key: the delay-`d` sublist
gains `m` at the front exactly when `m` has delay `d`. -/
theorem filter_delay_orderedInsert (m : TaggedMessage) (d : Nat) (l : List TaggedMessage) :
    (List.orderedInsert msgLE m l).filter (fun x => x.delay_hours == d) =
      if m.delay_hours = d then m :: l.filter (fun x => x.delay_hours == d)
      else l.filter (fun x => x.delay_hours == d) := by
  induction l with
  | nil =>
    by_cases hd : m.delay_hours = d <;> simp [List.orderedInsert, hd]
  | cons x xs ih =>
    simp only [List.orderedInsert]
    by_cases hle : msgLE m x
    · rw [if_pos hle]
      by_cases hd : m.delay_hours = d <;> simp [List.filter_cons, hd]
    · rw [if_neg hle]
      have hxm : x.delay_hours < m.delay_hours := Nat.lt_of_not_le hle
      by_cases hd : m.delay_hours = d
      · have hxd : ¬(x.delay_hours = d) := by omega
        simp [List.filter_cons, hxd, hd, ih]
      · by_cases hx : x.delay_hours = d <;> simp [List.filter_cons, hx, hd, ih]

/-- Stability of the whole sort for the delay key: sorting does not change
the relative order of messages sharing one `delay_hours` value. -/
theorem filter_delay_insertionSort (d : Nat) (l : List TaggedMessage) :
    (List.insertionSort msgLE l).filter (fun x => x.delay_hours == d) =
      l.filter (fun x => x.delay_hours == d) := by
  induction l with
  | nil => rfl
  | cons m rest ih =>
    simp only [List.insertionSort]
    rw [filter_delay_orderedInsert]
    by_cases hd : m.delay_hours = d <;> simp [List.filter_cons, hd, ih]

/-- All tagged emails carry channel `"email"`: the filtered type list is a
replicate. -/
theorem map_type_filter_tagEmail (emails : List Email) (p : TaggedMessage → Bool) :
    ((emails.map tagEmail).filter p).map (fun m => m.type) =
      List.replicate ((emails.map tagEmail).filter p).length "email" := by
  have h : ∀ b ∈ ((emails.map tagEmail).filter p).map (fun m => m.type), b = "email" := by
    intro b hb
    simp only [List.mem_map, List.mem_filter] at hb
    obtain ⟨m, ⟨hm, _⟩, rfl⟩ := hb
    obtain ⟨e, _, rfl⟩ := hm
    rfl
  have h2 := List.eq_replicate_of_mem h
  rwa [List.length_map] at h2

/-- All tagged sms carry channel `"sms"`: the filtered type list is a
replicate. -/
theorem map_type_filter_tagSms (sms : List Sms) (p : TaggedMessage → Bool) :
    ((sms.map tagSms).filter p).map (fun m => m.type) =
      List.replicate ((sms.map tagSms).filter p).length "sms" := by
  have h : ∀ b ∈ ((sms.map tagSms).filter p).map (fun m => m.type), b = "sms" := by
    intro b hb
    simp only [List.mem_map, List.mem_filter] at hb
    obtain ⟨m, ⟨hm, _⟩, rfl⟩ := hb
    obtain ⟨e, _, rfl⟩ := hm
    rfl
  have h2 := List.eq_replicate_of_mem h
  rwa [List.length_map] at h2

/-- Binding a successful `Except` runs the continuation. -/
theorem exceptBind_ok {α β : Type} (a : α) (f : α → Except String β) :
    (Except.ok a : Except String α) >>= f = f a := rfl

/-- Binding a raised `Except` propagates the exception. -/
theorem exceptBind_error {α β : Type} (e : String) (f : α → Except String β) :
    (Except.error e : Except String α) >>= f = Except.error e := rfl

/-- Mapping a constant function yields a replicate. -/
theorem map_fun_const {α β : Type} (l : List α) (b : β) :
    l.map (fun _ => b) = List.replicate l.length b := by
  induction l <;> simp_all [List.replicate_succ]

/-! ## Claim theorems -/

/-- C5: `get_trigger_type` is a total fixed lookup: the five table entries
map to their trigger types, and every string outside the table falls back
to `custom_event`; being a total Lean function of the string, it raises
for no input. -/
theorem get_trigger_type_total_lookup :
    get_trigger_type "Cart Abandonment" = "cart_abandonment" ∧
    get_trigger_type "Welcome Series" = "user_signup" ∧
    get_trigger_type "Post-Purchase" = "purchase_completed" ∧
    get_trigger_type "Win-Back" = "user_inactive" ∧
    get_trigger_type "Custom" = "custom_event" ∧
    ∀ s : String,
      s ∉ ["Cart Abandonment", "Welcome Series", "Post-Purchase", "Win-Back", "Custom"] →
      get_trigger_type s = "custom_event" := by
  refine ⟨rfl, rfl, rfl, rfl, rfl, ?_⟩
  intro s hs
  simp only [List.mem_cons, List.not_mem_nil, or_false, not_or] at hs
  obtain ⟨h1, h2, h3, h4, h5⟩ := hs
  simp [get_trigger_type, trigger_types, List.lookup,
    beq_eq_false_iff_ne.mpr h1, beq_eq_false_iff_ne.mpr h2, beq_eq_false_iff_ne.mpr h3,
    beq_eq_false_iff_ne.mpr h4, beq_eq_false_iff_ne.mpr h5]

/-- Witness for C5 at the concrete out-of-table string `"Flash Sale"`. -/
theorem get_trigger_type_total_lookup_witness :
    "Flash Sale" ∉ ["Cart Abandonment", "Welcome Series", "Post-Purchase", "Win-Back", "Custom"] ∧
    get_trigger_type "Flash Sale" = "custom_event" :=
  ⟨by decide, get_trigger_type_total_lookup.2.2.2.2.2 "Flash Sale" (by decide)⟩

/-- C7: `analyze_brand_from_url` never propagates a fetch failure: for
every url, wall-clock value and extractor family, both failure modes of
`get_website_text_content` (a raised exception, or empty content which
triggers the source's own raise) yield the degraded fallback profile —
`error` set (the degraded marker), brand name derived from the url's
domain by `extract_domain_name`, products `["Product or Service"]` and
target audience `"General consumers"`.  The final conjunct evaluates the
domain derivation at a concrete url. -/
theorem analyze_brand_from_url_fallback :
    (∀ (ex : BrandExtractors) (now : Nat) (url e : String),
      (analyze_brand_from_url ex (.error e) now url).error = some e ∧
      (analyze_brand_from_url ex (.error e) now url).brand_name = extract_domain_name url ∧
      (analyze_brand_from_url ex (.error e) now url).products = ["Product or Service"] ∧
      (analyze_brand_from_url ex (.error e) now url).target_audience = "General consumers" ∧
      (analyze_brand_from_url ex (.ok "") now url).error =
        some ("Failed to extract content from " ++ url) ∧
      (analyze_brand_from_url ex (.ok "") now url).brand_name = extract_domain_name url ∧
      (analyze_brand_from_url ex (.ok "") now url).products = ["Product or Service"] ∧
      (analyze_brand_from_url ex (.ok "") now url).target_audience = "General consumers") ∧
    extract_domain_name "https://www.example.com/pricing" = "Example" := by
  exact ⟨fun ex now url e => ⟨rfl, rfl, rfl, rfl, rfl, rfl, rfl, rfl⟩, by decide⟩

/-- C9: `save_campaign_to_memory` appends the new campaign and keeps only
the most recent 10 entries: the stored history is the tail of the appended
list with the oldest entries dropped from the front, its length is capped
at 10, and the newly appended campaign is always its last element. -/
theorem save_campaign_to_memory_cap :
    ∀ {α : Type} (campaigns : List α) (campaign_result : α),
      save_campaign_to_memory campaigns campaign_result =
        (campaigns ++ [campaign_result]).drop (campaigns.length + 1 - 10) ∧
      (save_campaign_to_memory campaigns campaign_result).length =
        min (campaigns.length + 1) 10 ∧
      (save_campaign_to_memory campaigns campaign_result).getLast? = some campaign_result := by
  intro α campaigns campaign_result
  have hlen : (campaigns ++ [campaign_result]).length = campaigns.length + 1 := by simp
  by_cases h : (campaigns ++ [campaign_result]).length > 10
  · have heq : save_campaign_to_memory campaigns campaign_result =
        (campaigns ++ [campaign_result]).drop (campaigns.length + 1 - 10) := by
      simp only [save_campaign_to_memory]
      rw [if_pos h, hlen]
    refine ⟨heq, ?_, ?_⟩
    · rw [heq, List.length_drop, hlen]
      omega
    · rw [heq]
      have hle : campaigns.length + 1 - 10 ≤ campaigns.length := by omega
      rw [List.drop_append_of_le_length hle, List.getLast?_concat]
  · have h10 : campaigns.length + 1 ≤ 10 := by omega
    have heq : save_campaign_to_memory campaigns campaign_result =
        campaigns ++ [campaign_result] := by
      simp only [save_campaign_to_memory]
      rw [if_neg h]
    refine ⟨?_, ?_, ?_⟩
    · rw [heq, show campaigns.length + 1 - 10 = 0 from by omega, List.drop_zero]
    · rw [heq, hlen]; omega
    · rw [heq, List.getLast?_concat]

/-- C10: the Klaviyo export ignores the composed, delay-sorted timeline —
its `messages` list is all emails in input order followed by all sms in
input order, of total length `len(emails) + len(sms)`, with each message
carrying its own unit's delay under the 24-hour email / 48-hour sms
defaults, regardless of the relative delay values. -/
theorem generate_klaviyo_export_input_order :
    ∀ (campaign_plan : CampaignPlan) (emails : List Email) (sms : List Sms)
      (visuals : List Visual),
      (generate_klaviyo_export campaign_plan emails sms visuals).messages =
        emails.map klaviyo_email_message ++ sms.map klaviyo_sms_message ∧
      (generate_klaviyo_export campaign_plan emails sms visuals).messages.length =
        emails.length + sms.length ∧
      (generate_klaviyo_export campaign_plan emails sms visuals).messages.map ktype =
        List.replicate emails.length "email" ++ List.replicate sms.length "sms" ∧
      (generate_klaviyo_export campaign_plan emails sms visuals).messages.map kdelay =
        emails.map (fun e => e.timing_send_after_hours.getD 24) ++
          sms.map (fun m => m.timing_send_after_hours.getD 48) := by
  intro campaign_plan emails sms visuals
  refine ⟨rfl, by simp [generate_klaviyo_export], ?_, ?_⟩
  · simp only [generate_klaviyo_export, List.map_append, List.map_map]
    rw [show (ktype ∘ klaviyo_email_message) = fun _ => "email" from rfl,
        show (ktype ∘ klaviyo_sms_message) = fun _ => "sms" from rfl,
        map_fun_const, map_fun_const]
  · simp only [generate_klaviyo_export, List.map_append, List.map_map]
    rfl

/-- C8 (amended): the klaviyo, mailchimp, hubspot and generic_csv exports
are pure functions of the flow contents (two renders at any two times
agree byte for byte), while the json export additionally embeds the render
timestamp `datetime.now().isoformat()`, so two of its renders are
byte-identical only when the clock readings coincide. -/
theorem generate_export_formats_time_dependence :
    ∀ (campaign_plan : CampaignPlan) (emails : List Email) (sms : List Sms)
      (visuals : List Visual) (now₁ now₂ : String),
      (generate_export_formats campaign_plan emails sms visuals now₁).klaviyo =
        (generate_export_formats campaign_plan emails sms visuals now₂).klaviyo ∧
      (generate_export_formats campaign_plan emails sms visuals now₁).mailchimp =
        (generate_export_formats campaign_plan emails sms visuals now₂).mailchimp ∧
      (generate_export_formats campaign_plan emails sms visuals now₁).hubspot =
        (generate_export_formats campaign_plan emails sms visuals now₂).hubspot ∧
      (generate_export_formats campaign_plan emails sms visuals now₁).generic_csv =
        (generate_export_formats campaign_plan emails sms visuals now₂).generic_csv ∧
      (generate_export_formats campaign_plan emails sms visuals now₁).json.export_timestamp =
        now₁ :=
  fun _ _ _ _ _ _ => ⟨rfl, rfl, rfl, rfl, rfl⟩

/-- C8 (counterexample): rendering the json export of one fixed flow at
two different clock readings yields different output (the records differ
in `export_timestamp`, hence their `json.dumps` serializations differ
byte-wise), refuting "each export is a pure function of the flow's
contents alone". -/
theorem generate_json_export_depends_on_render_time :
    generate_json_export planEmpty [] [] [] "2024-01-01T00:00:00" ≠
      generate_json_export planEmpty [] [] [] "2024-01-01T00:00:01" := by
  intro h
  exact absurd (congrArg JsonExport.export_timestamp h) (by decide)

/-- C2: composition is total and lossless.  For every email and sms list,
`build_message_sequence` yields exactly `len(emails) + len(sms)` steps;
step ids run `step_1, step_2, ...` sequentially; each step's `next_step`
names the following step id and the last step's is `"end_flow"`; the
sorted message list is a permutation of the tagged inputs (no unit lost
or duplicated) and each step carries the channel and content block of its
own sorted message; empty inputs yield the empty sequence, not an error. -/
theorem build_message_sequence_total_lossless :
    ∀ (emails : List Email) (sms : List Sms) (campaign_plan : CampaignPlan),
      (build_message_sequence emails sms campaign_plan).length =
        emails.length + sms.length ∧
      (build_message_sequence emails sms campaign_plan).map (fun s => s.step_id) =
        (List.range (build_message_sequence emails sms campaign_plan).length).map
          (fun k => "step_" ++ toString (k + 1)) ∧
      (build_message_sequence emails sms campaign_plan).map (fun s => s.next_step) =
        (List.range (build_message_sequence emails sms campaign_plan).length).map
          (fun k =>
            if k < (build_message_sequence emails sms campaign_plan).length - 1
            then "step_" ++ toString (k + 2) else "end_flow") ∧
      List.Perm (List.insertionSort msgLE (all_messages emails sms))
        (all_messages emails sms) ∧
      (build_message_sequence emails sms campaign_plan).map
          (fun s => (s.step_type, s.content)) =
        (List.insertionSort msgLE (all_messages emails sms)).map
          (fun m => (m.type, build_message_content_block m.content m.type)) ∧
      build_message_sequence [] [] campaign_plan = [] := by
  intro emails sms campaign_plan
  refine ⟨?_, ?_, ?_, List.perm_insertionSort msgLE _, ?_, rfl⟩
  · simp [build_message_sequence, length_buildSeq, List.length_insertionSort, all_messages]
  · simp only [build_message_sequence]
    rw [map_step_id_buildSeq, length_buildSeq, List.range_eq_range']
  · simp only [build_message_sequence]
    rw [map_next_step_buildSeq]
    simp only [length_buildSeq, List.range_eq_range']
  · simp only [build_message_sequence]
    rw [map_type_content_buildSeq]

/-- C3 (amended): the composed sequence is sorted non-decreasingly by
delay; on equal delays the sort is stable with respect to the concatenated
input order, so all email-channel steps precede all sms-channel steps of
that delay, and within one channel units keep their original input-list
position (not necessarily their `sequence_number` order). -/
theorem build_message_sequence_stable_ordering :
    ∀ (emails : List Email) (sms : List Sms) (campaign_plan : CampaignPlan),
      List.Pairwise (fun a b => a.delay.value ≤ b.delay.value)
        (build_message_sequence emails sms campaign_plan) ∧
      (∀ d : Nat,
        (List.insertionSort msgLE (all_messages emails sms)).filter
            (fun m => m.delay_hours == d) =
          (emails.map tagEmail).filter (fun m => m.delay_hours == d) ++
            (sms.map tagSms).filter (fun m => m.delay_hours == d)) ∧
      (∀ d : Nat,
        ((build_message_sequence emails sms campaign_plan).filter
            (fun s => s.delay.value == d)).map (fun s => s.step_type) =
          List.replicate
              ((emails.map tagEmail).filter (fun m => m.delay_hours == d)).length "email" ++
            List.replicate
              ((sms.map tagSms).filter (fun m => m.delay_hours == d)).length "sms") := by
  intro emails sms campaign_plan
  refine ⟨?_, ?_, ?_⟩
  · simp only [build_message_sequence]
    exact pairwise_buildSeq _ 0 _ (List.sorted_insertionSort msgLE _)
  · intro d
    rw [filter_delay_insertionSort]
    simp [all_messages, List.filter_append]
  · intro d
    simp only [build_message_sequence]
    rw [filter_map_buildSeq, filter_delay_insertionSort]
    simp only [all_messages, List.filter_append, List.map_append]
    rw [map_type_filter_tagEmail, map_type_filter_tagSms]

/-- C3 (counterexample): two email units with equal delay 24 but sequence
numbers 2 and 1, given in that input order, come out in input order
`Email 2, Email 1` — the tie is not broken by the units' original
sequence number, refuting that part of the claim. -/
theorem build_message_sequence_tie_break_counterexample :
    (build_message_sequence [emailSeq2, emailSeq1] [] planEmpty).map (fun s => s.step_name) =
      ["Email 2", "Email 1"] ∧
    (build_message_sequence [emailSeq2, emailSeq1] [] planEmpty).map
        (fun s => s.delay.value) = [24, 24] ∧
    (build_message_sequence [emailSeq2, emailSeq1] [] planEmpty).map (fun s => s.step_name) ≠
      ["Email 1", "Email 2"] := by
  refine ⟨?_, ?_, ?_⟩ <;> decide

/-- C4: a message unit with no `timing.send_after_hours` key gets the
default delay — 24 hours for an email, 48 for an sms — instead of an
error; the defaulted values are written into the step's delay block and
drive the sorting (an sms with an explicit 1-hour delay sorts before a
defaulted email). -/
theorem build_message_sequence_default_delays :
    ∀ (campaign_plan : CampaignPlan) (email : Email) (sms_msg : Sms),
      email.timing_send_after_hours = none →
      sms_msg.timing_send_after_hours = none →
      ((build_message_sequence [email] [sms_msg] campaign_plan).map
          (fun s => (s.step_type, s.delay)) =
        [("email", { type := "time_delay", value := 24, unit := "hours" }),
         ("sms", { type := "time_delay", value := 48, unit := "hours" })]) ∧
      (∀ sms2 : Sms, sms2.timing_send_after_hours = some 1 →
        (build_message_sequence [email] [sms2] campaign_plan).map
            (fun s => (s.step_type, s.delay.value)) = [("sms", 1), ("email", 24)]) := by
  intro campaign_plan email sms_msg he hs
  constructor
  · simp [build_message_sequence, all_messages, tagEmail, tagSms, he, hs,
      List.insertionSort, List.orderedInsert, buildSeq, sequence_item, msgLE]
  · intro sms2 h2
    simp [build_message_sequence, all_messages, tagEmail, tagSms, he, h2,
      List.insertionSort, List.orderedInsert, buildSeq, sequence_item, msgLE]

/-- Witness for C4 at concrete units with no timing key (and an sms with
an explicit 1-hour delay for the sorting conjunct). -/
theorem build_message_sequence_default_delays_witness :
    ((build_message_sequence [emailNone] [smsNone] planEmpty).map
        (fun s => (s.step_type, s.delay)) =
      [("email", { type := "time_delay", value := 24, unit := "hours" }),
       ("sms", { type := "time_delay", value := 48, unit := "hours" })]) ∧
    ((build_message_sequence [emailNone] [smsOne] planEmpty).map
        (fun s => (s.step_type, s.delay.value)) = [("sms", 1), ("email", 24)]) := by
  have h := build_message_sequence_default_delays planEmpty emailNone smsNone rfl rfl
  exact ⟨h.1, h.2 smsOne rfl⟩

/-- Keeping first occurrences is a legal set linearization. -/
theorem isSetLinearization_dedup : IsSetLinearization dedupLinearization := by
  intro l
  exact ⟨List.nodup_dedup l, fun x => List.mem_dedup⟩

/-- Keeping first occurrences reversed is also a legal set linearization
(CPython fixes no iteration order for a set of strings). -/
theorem isSetLinearization_reverse : IsSetLinearization reverseLinearization := by
  intro l
  refine ⟨List.nodup_reverse.mpr (List.nodup_dedup l), fun x => ?_⟩
  simp [reverseLinearization, List.mem_reverse, List.mem_dedup]

/-- C6 (amended): for every input family and every legal set-iteration
order, the summary's total asset count is the sum of the collection
lengths (captions flattened per platform), and `content_types` is
duplicate-free and contains exactly the content-type names whose input
collection is non-empty — but as an unordered set: the list order is
whatever the CPython set iteration yields, not necessarily the canonical
ad_copy, social_captions, images, ugc_scripts, email_assets order. -/
theorem create_content_summary_counts_and_types :
    ∀ {α β γ δ : Type} (setList : List String → List String),
      IsSetLinearization setList →
      ∀ (ad_copy : List α) (social_captions : List (String × List String))
        (images : List β) (ugc_scripts : List γ) (email_assets : List δ),
      (create_content_summary setList ad_copy social_captions images
          ugc_scripts email_assets).total_assets =
        ad_copy.length + (social_captions.map (fun kv => kv.2.length)).sum +
          images.length + ugc_scripts.length + email_assets.length ∧
      (create_content_summary setList ad_copy social_captions images
          ugc_scripts email_assets).content_types.Nodup ∧
      ∀ x, x ∈ (create_content_summary setList ad_copy social_captions images
          ugc_scripts email_assets).content_types ↔
        ((x = "ad_copy" ∧ ad_copy ≠ []) ∨
         (x = "social_captions" ∧ social_captions ≠ []) ∨
         (x = "images" ∧ images ≠ []) ∨
         (x = "ugc_scripts" ∧ ugc_scripts ≠ []) ∨
         (x = "email_assets" ∧ email_assets ≠ [])) := by
  intro α β γ δ setList hlin ad_copy social_captions images ugc_scripts email_assets
  refine ⟨rfl, (hlin _).1, ?_⟩
  intro x
  rw [show (create_content_summary setList ad_copy social_captions images
      ugc_scripts email_assets).content_types = setList (([
        if ad_copy.isEmpty then none else some "ad_copy",
        if social_captions.isEmpty then none else some "social_captions",
        if images.isEmpty then none else some "images",
        if ugc_scripts.isEmpty then none else some "ugc_scripts",
        if email_assets.isEmpty then none else some "email_assets"] :
        List (Option String)).filterMap id) from rfl]
  rw [(hlin _).2 x]
  by_cases ha : ad_copy = [] <;> by_cases hs : social_captions = [] <;>
    by_cases hi : images = [] <;> by_cases hu : ugc_scripts = [] <;>
    by_cases he : email_assets = [] <;>
    simp [ha, hs, hi, hu, he, List.isEmpty_iff, List.mem_filterMap, or_comm, or_left_comm,
      and_comm]

/-- Witness for C6 at concrete collections under the first-occurrence
linearization. -/
theorem create_content_summary_counts_and_types_witness :
    (create_content_summary dedupLinearization ([7] : List Nat)
        [("instagram", ["c1", "c2"])] ([1, 2] : List Nat) ([] : List Nat)
        ([] : List Nat)).total_assets = 5 ∧
    (create_content_summary dedupLinearization ([7] : List Nat)
        [("instagram", ["c1", "c2"])] ([1, 2] : List Nat) ([] : List Nat)
        ([] : List Nat)).content_types.Nodup ∧
    (("images" ∈ (create_content_summary dedupLinearization ([7] : List Nat)
        [("instagram", ["c1", "c2"])] ([1, 2] : List Nat) ([] : List Nat)
        ([] : List Nat)).content_types) ↔
      (("images" = "ad_copy" ∧ ([7] : List Nat) ≠ []) ∨
       ("images" = "social_captions" ∧ [("instagram", ["c1", "c2"])] ≠ []) ∨
       ("images" = "images" ∧ ([1, 2] : List Nat) ≠ []) ∨
       ("images" = "ugc_scripts" ∧ ([] : List Nat) ≠ []) ∨
       ("images" = "email_assets" ∧ ([] : List Nat) ≠ []))) := by
  have h := create_content_summary_counts_and_types dedupLinearization
    isSetLinearization_dedup ([7] : List Nat) [("instagram", ["c1", "c2"])]
    ([1, 2] : List Nat) ([] : List Nat) ([] : List Nat)
  exact ⟨h.1, h.2.1, h.2.2 "images"⟩

/-- C6 (counterexample): under the reversed linearization — a legal
CPython set-iteration order — the content-type list of a bundle with
non-empty ad copy and images comes out `["images", "ad_copy"]`, not the
claimed order-preserving `["ad_copy", "images"]`. -/
theorem create_content_summary_order_counterexample :
    IsSetLinearization reverseLinearization ∧
    (create_content_summary reverseLinearization ([7] : List Nat)
        ([] : List (String × List String)) ([1] : List Nat) ([] : List Nat)
        ([] : List Nat)).content_types = ["images", "ad_copy"] ∧
    (["images", "ad_copy"] : List String) ≠ ["ad_copy", "images"] := by
  refine ⟨isSetLinearization_reverse, by decide, by decide⟩

/-- C1 (amended): every node catches its own exception, appends exactly
one `"<StepName> failed: <text>"` entry and passes the state on otherwise
unchanged, so no exception ever escapes `workflow_invoke`; but a single
forced failure cascades: each later node whose `state[...]` lookup hits
the slot the failed step left absent raises a `KeyError` of its own,
caught and logged in turn.  Exactly one error entry therefore results
only when the forced step is the final flow-building step; forcing an
earlier step leaves one entry per affected step (e.g. forcing email
generation yields the email, visual and flow-building entries). -/
theorem workflow_invoke_single_failure_profile :
    ∀ {B P E S V F : Type} (ba : B) (p : P) (es : E) (sm : S) (vs : V) (fl : F)
      (msg url ct cp ta tn : String) (ne ns : Int), 0 < ns →
      (workflow_invoke (forceFlow ba p es sm vs fl msg)
          (initial_state url ct cp ne ns ta tn)).errors =
        ["Flow building failed: " ++ msg] ∧
      (workflow_invoke (forceFlow ba p es sm vs fl msg)
          (initial_state url ct cp ne ns ta tn)).campaign_flow = none ∧
      (workflow_invoke (forceFlow ba p es sm vs fl msg)
          (initial_state url ct cp ne ns ta tn)).brand_analysis = some ba ∧
      (workflow_invoke (forceFlow ba p es sm vs fl msg)
          (initial_state url ct cp ne ns ta tn)).campaign_plan = some p ∧
      (workflow_invoke (forceFlow ba p es sm vs fl msg)
          (initial_state url ct cp ne ns ta tn)).emails = some es ∧
      (workflow_invoke (forceFlow ba p es sm vs fl msg)
          (initial_state url ct cp ne ns ta tn)).sms = some sm ∧
      (workflow_invoke (forceFlow ba p es sm vs fl msg)
          (initial_state url ct cp ne ns ta tn)).visuals = some vs ∧
      (workflow_invoke (forceVisuals ba p es sm vs fl msg)
          (initial_state url ct cp ne ns ta tn)).errors =
        ["Visual generation failed: " ++ msg, "Flow building failed: \x27visuals\x27"] ∧
      (workflow_invoke (forceVisuals ba p es sm vs fl msg)
          (initial_state url ct cp ne ns ta tn)).visuals = none ∧
      (workflow_invoke (forceSms ba p es sm vs fl msg)
          (initial_state url ct cp ne ns ta tn)).errors =
        ["SMS generation failed: " ++ msg, "Flow building failed: \x27sms\x27"] ∧
      (workflow_invoke (forceEmails ba p es sm vs fl msg)
          (initial_state url ct cp ne ns ta tn)).errors =
        ["Email generation failed: " ++ msg, "Visual generation failed: \x27emails\x27",
         "Flow building failed: \x27emails\x27"] ∧
      (workflow_invoke (forcePlan ba p es sm vs fl msg)
          (initial_state url ct cp ne ns ta tn)).errors =
        ["Campaign planning failed: " ++ msg,
         "Email generation failed: \x27campaign_plan\x27",
         "SMS generation failed: \x27campaign_plan\x27",
         "Visual generation failed: \x27campaign_plan\x27",
         "Flow building failed: \x27campaign_plan\x27"] ∧
      (workflow_invoke (forceAnalyze ba p es sm vs fl msg)
          (initial_state url ct cp ne ns ta tn)).errors =
        ["Brand analysis failed: " ++ msg,
         "Campaign planning failed: \x27brand_analysis\x27",
         "Email generation failed: \x27brand_analysis\x27",
         "SMS generation failed: \x27brand_analysis\x27",
         "Visual generation failed: \x27brand_analysis\x27",
         "Flow building failed: \x27campaign_plan\x27"] := by
  intro B P E S V F ba p es sm vs fl msg url ct cp ta tn ne ns hns
  refine ⟨?_, ?_, ?_, ?_, ?_, ?_, ?_, ?_, ?_, ?_, ?_, ?_, ?_⟩ <;>
    simp [workflow_invoke, analyze_brand_node, plan_campaign_node, generate_emails_node,
      generate_sms_node, generate_visuals_node, build_flow_node, catchStep, getKey,
      forceFlow, forceVisuals, forceSms, forceEmails, forcePlan, forceAnalyze, okCollab,
      initial_state, exceptBind_ok, exceptBind_error, pure, Except.pure, hns]

/-- Witness for C1 at concrete inputs: forcing only the flow-building step
yields exactly its one error entry, while forcing only the email step
yields the three-entry cascade. -/
theorem workflow_invoke_single_failure_profile_witness :
    (0 : Int) < 1 ∧
    (workflow_invoke (forceFlow () () () () () () "boom")
        (initial_state (B := Unit) (P := Unit) (E := Unit) (S := Unit) (V := Unit)
          (F := Unit) "https://brand.example" "Welcome Series" "" 3 1
          "General customers" "Professional")).errors =
      ["Flow building failed: " ++ "boom"] ∧
    (workflow_invoke (forceEmails () () () () () () "boom")
        (initial_state (B := Unit) (P := Unit) (E := Unit) (S := Unit) (V := Unit)
          (F := Unit) "https://brand.example" "Welcome Series" "" 3 1
          "General customers" "Professional")).errors =
      ["Email generation failed: " ++ "boom", "Visual generation failed: \x27emails\x27",
       "Flow building failed: \x27emails\x27"] := by
  have h := workflow_invoke_single_failure_profile (B := Unit) (P := Unit) (E := Unit)
    (S := Unit) (V := Unit) (F := Unit) () () () () () () "boom" "https://brand.example"
    "Welcome Series" "" "General customers" "Professional" 3 1 (by decide)
  exact ⟨by decide, h.1, h.2.2.2.2.2.2.2.2.2.2.1⟩

/-- C1 (counterexample): with exactly one step (email generation) forced
to raise and every other collaborator succeeding, the run ends with three
error entries, not the claimed exactly one. -/
theorem workflow_invoke_forced_email_not_single_error :
    (workflow_invoke (forceEmails (B := Unit) (P := Unit) (E := Unit) (S := Unit)
          (V := Unit) (F := Unit) () () () () () () "boom")
        (initial_state "https://brand.example" "Welcome Series" "" 3 1
          "General customers" "Professional")).errors.length = 3 ∧
    ¬ ((workflow_invoke (forceEmails (B := Unit) (P := Unit) (E := Unit) (S := Unit)
          (V := Unit) (F := Unit) () () () () () () "boom")
        (initial_state "https://brand.example" "Welcome Series" "" 3 1
          "General customers" "Professional")).errors.length = 1) := by
  exact ⟨by decide, by decide⟩
